import Mathlib

/-!
Verification of the DoR-Gatekeeper readiness-scoring and issue-lifecycle
engine: a shallow embedding of the scoring engine (`src/lib/rules-engine.ts`),
the scan/rescan orchestrator, the question-generation, Slack-send and
override routes, with theorems settling the specification claims.

Conventions of the embedding:
* JavaScript numbers are modelled as exact rationals (`ℚ`); the arithmetic
  performed by the code (sums of rule weights, division, the 0.6-damped
  boost) is expressed by the same formulas over `ℚ`.
* JavaScript dynamic field access `issue[targetField]` is modelled by a
  finite association list from field names to `JsValue`s.
* Code that can throw (an uncaught `SyntaxError` escaping `new RegExp`)
  is modelled in `Option`: `none` means the exception escapes.
* `new RegExp(p, 'i')` is modelled on the pattern fragment this repository
  uses (literal alternation groups such as `(acceptance criteria|AC:)`,
  bare literals, the empty pattern, optionally carrying the legacy
  Python-style inline flag `(?i)`). In JavaScript, `(?i)` is an invalid
  group and compilation raises `SyntaxError`; compiled patterns with the
  `i` flag match by case-insensitive substring search of any alternative.
* Database tables are modelled as lists of rows; `upsert` keyed on the
  unique `jiraKey` column updates all matching rows (at most one, given
  the uniqueness invariant) or appends a fresh row.
* Timestamp columns (`scannedAt`, `updatedAt`, `answeredAt`, `createdAt`)
  are not modelled; no claim concerns them.
-/

namespace DorGatekeeper

/-! ## String primitives

Structural re-implementations of the string operations the code uses
(substring search, lowercasing, global replace, trim, split), so that
every definition evaluates by kernel reduction. -/

/-- `needle` is a prefix of `hay` (character lists). -/
def charPre : List Char → List Char → Bool
  | [], _ => true
  | _ :: _, [] => false
  | a :: as, b :: bs => a == b && charPre as bs

/-- `needle` occurs as a contiguous segment of `hay`. -/
def charSub : List Char → List Char → Bool
  | needle, [] => needle.isEmpty
  | needle, c :: rest => charPre needle (c :: rest) || charSub needle rest

/-- JavaScript `hay.includes(needle)`. -/
def strContains (hay needle : String) : Bool :=
  charSub needle.data hay.data

/-- JavaScript `s.toLowerCase()` (ASCII, which is all the code compares). -/
def lowerStr (s : String) : String :=
  ⟨s.data.map Char.toLower⟩

/-- Left-to-right non-overlapping global replacement on character lists,
with fuel bounded by the haystack length. -/
def replaceChars : Nat → List Char → List Char → List Char → List Char
  | 0, hay, _, _ => hay
  | _ + 1, [], _, _ => []
  | fuel + 1, c :: rest, needle, repl =>
    if needle ≠ [] && charPre needle (c :: rest) then
      repl ++ replaceChars fuel (List.drop (needle.length - 1) rest)
        needle repl
    else
      c :: replaceChars fuel rest needle repl

/-- JavaScript `s.replace(/needle/g, repl)` for a literal needle. -/
def strReplace (s needle repl : String) : String :=
  ⟨replaceChars s.data.length s.data needle.data repl.data⟩

/-- JavaScript `s.trim()`. -/
def jsTrim (s : String) : String :=
  ⟨((s.data.dropWhile Char.isWhitespace).reverse.dropWhile
      Char.isWhitespace).reverse⟩

/-- Split on the `|` character (the alternation separator). -/
def splitBarAux : List Char → List Char → List (List Char)
  | [], cur => [cur.reverse]
  | c :: rest, cur =>
    if c == '|' then cur.reverse :: splitBarAux rest []
    else splitBarAux rest (c :: cur)

/-- The alternatives of a `|`-separated pattern body. -/
def splitBar (s : String) : List String :=
  (splitBarAux s.data []).map String.mk

/-- `s` starts with `p`. -/
def strStarts (s p : String) : Bool := charPre p.data s.data

/-- `s` ends with `p`. -/
def strEnds (s p : String) : Bool := charPre p.data.reverse s.data.reverse

/-- Comma-join of a string array (JavaScript `Array.prototype.toString`). -/
def commaJoin : List String → String
  | [] => ""
  | [x] => x
  | x :: y :: rest => x ++ "," ++ commaJoin (y :: rest)


/-! ## JavaScript value semantics -/

/-- A JavaScript value as it occurs in issue field maps: strings, numbers
(the story-point field holds integers in this repository), `null`,
`undefined` (missing field), the `{name}` priority object, and the labels
string array. -/
inductive JsValue where
  | vStr (s : String)
  | vNum (n : Int)
  | vNull
  | vUndefined
  | vObj (name : String)
  | vArr (elems : List String)
deriving DecidableEq, Repr

/-- JavaScript truthiness of a `JsValue`.  Note that any object or array is
truthy, including the empty array (the §4.1 empty-array caveat). -/
def JsValue.truthy : JsValue → Bool
  | .vStr s => s ≠ ""
  | .vNum n => n ≠ 0
  | .vNull => false
  | .vUndefined => false
  | .vObj _ => true
  | .vArr _ => true

/-- JavaScript `v || ''`: the value itself when truthy, else the empty
string. -/
def JsValue.orEmptyStr (v : JsValue) : JsValue :=
  if v.truthy then v else .vStr ""

/-- JavaScript `String(v)`: identity on strings, decimal rendering of
numbers, `"null"` / `"undefined"`, `"[object Object]"` for plain objects,
comma-joined elements for arrays. -/
def JsValue.jsToString : JsValue → String
  | .vStr s => s
  | .vNum n => toString n
  | .vNull => "null"
  | .vUndefined => "undefined"
  | .vObj _ => "[object Object]"
  | .vArr xs => commaJoin xs

/-- An issue as seen by the scoring engine: a finite map from field names
to values (`issue[rule.targetField]`); a missing key reads `undefined`. -/
def IssueFields := List (String × JsValue)

/-- Dynamic field access `issue[f]`; an absent field is `undefined`. -/
def getField (issue : IssueFields) (f : String) : JsValue :=
  match issue.find? (fun p => p.1 == f) with
  | some p => p.2
  | none => .vUndefined

/-! ## JavaScript regular expressions (repository fragment) -/

/-- A compiled JavaScript regex of the fragment used by this repository:
a disjunction of literal alternatives, matched (under the `i` flag) by
case-insensitive substring search. -/
structure JsRegexI where
  alternatives : List String
deriving DecidableEq, Repr

/-- `new RegExp(p, 'i')` on the repository's pattern fragment.  A pattern
containing the legacy Python-style inline flag `(?i)` is rejected: in
JavaScript `(?` must be followed by one of `:`/`=`/`!`/`<`, so `(?i)`
raises `SyntaxError: Invalid group`.  Otherwise an outer literal group
`(a|b|c)` (or a bare literal) compiles to its list of alternatives. -/
def jsRegexCompileI (p : String) : Option JsRegexI :=
  if strContains p "(?i)" then
    none
  else
    let body : String :=
      if strStarts p "(" && strEnds p ")" then ⟨(p.data.drop 1).dropLast⟩
      else p
    some ⟨splitBar body⟩

/-- `re.test(s)` for a case-insensitively compiled literal alternation:
some alternative occurs in `s` ignoring case. -/
def JsRegexI.test (re : JsRegexI) (s : String) : Bool :=
  re.alternatives.any (fun alt => strContains (lowerStr s) (lowerStr alt))

/-! ## Data model -/

/-- A DoR rule row (`DorRule`). -/
structure Rule where
  name : String
  description : String
  enabled : Bool
  severity : String
  weight : ℚ
  detectionMethod : String
  targetField : String
  expectedPattern : String
  minLength : Option Int
deriving DecidableEq, Repr

/-- A structured missing item `{rule, severity, suggestion}`. -/
structure MissingItem where
  rule : String
  severity : String
  suggestion : String
deriving DecidableEq, Repr

/-- A `ScannedIssue` row.  `missingItems` is stored JSON-serialized in the
database; it is modelled here in its parsed structured form. -/
structure ScannedIssue where
  id : String
  jiraKey : String
  summary : String
  description : String
  assignee : String
  readinessScore : ℚ
  status : String
  missingItems : List MissingItem
  questionsGenerated : Bool
  slackMessageSent : Bool
  manualOverride : Bool
  overrideReason : String
deriving DecidableEq, Repr

/-- A `QaAnswer` row (`answer = ""` means unanswered). -/
structure QaAnswer where
  id : String
  issueId : String
  question : String
  answer : String
deriving DecidableEq, Repr

/-- A normalized issue record supplied by the issue provider
(`NormalizedIssue` in `src/lib/jira.ts`). -/
structure NormalizedIssue where
  key : String
  summary : String
  description : String
  assignee : String
  priority : Option String
  labels : List String
  customfield10016 : Option Int
deriving DecidableEq, Repr

/-- The dynamic field map of a normalized issue, as `issue[targetField]`
reads it. -/
def NormalizedIssue.fields (i : NormalizedIssue) : IssueFields :=
  [("key", .vStr i.key), ("summary", .vStr i.summary),
   ("description", .vStr i.description), ("assignee", .vStr i.assignee),
   ("priority", match i.priority with
     | some n => .vObj n
     | none => .vNull),
   ("labels", .vArr i.labels),
   ("customfield_10016", match i.customfield10016 with
     | some n => .vNum n
     | none => .vNull)]

/-! ## ScoringEngine: `calculateReadinessScore` (src/lib/rules-engine.ts) -/

/-- JavaScript truthiness of `rule.minLength` (`null` and `0` are falsy). -/
def minLengthTruthy : Option Int → Bool
  | some m => m ≠ 0
  | none => false

/-- The per-rule pass computation of `calculateReadinessScore`:
`fieldValue = issue[targetField] || ''`; with a non-empty pattern the raw
pattern is handed to `new RegExp(pattern, 'i')` (`none` models the
uncaught `SyntaxError`); otherwise presence
(`fieldValue !== '' && fieldValue !== null && fieldValue !== undefined`);
then the `minLength` downgrade. -/
def ruleCheck (issue : IssueFields) (rule : Rule) : Option Bool :=
  let fieldValue := (getField issue rule.targetField).orEmptyStr
  if rule.detectionMethod == "field_presence" then
    let base :=
      if rule.expectedPattern ≠ "" then
        match jsRegexCompileI rule.expectedPattern with
        | none => none
        | some re => some (re.test fieldValue.jsToString)
      else
        some (fieldValue ≠ .vStr "" && fieldValue ≠ .vNull &&
              fieldValue ≠ .vUndefined)
    match base with
    | none => none
    | some passes =>
      if passes && minLengthTruthy rule.minLength then
        some (decide (fieldValue.jsToString.length ≥
          (rule.minLength.getD 0).toNat))
      else
        some passes
  else
    some false

/-- The accumulation loop of `calculateReadinessScore`: skips disabled
rules, adds each enabled rule's weight to `totalWeight`, adds it to
`earnedScore` when the rule passes, and propagates an escaping
`SyntaxError`. -/
def scoreLoop (issue : IssueFields) :
    List Rule → ℚ → ℚ → Option (ℚ × ℚ)
  | [], totalWeight, earnedScore => some (totalWeight, earnedScore)
  | rule :: rest, totalWeight, earnedScore =>
    if rule.enabled then
      match ruleCheck issue rule with
      | none => none
      | some passes =>
        scoreLoop issue rest (totalWeight + rule.weight)
          (earnedScore + if passes then rule.weight else 0)
    else
      scoreLoop issue rest totalWeight earnedScore

/-- `calculateReadinessScore(issue, rules)`: returns
`totalWeight > 0 ? earnedScore / totalWeight * 5 : 0`; `none` models the
uncaught `SyntaxError` escaping the function. -/
def calculateReadinessScore (issue : IssueFields) (rules : List Rule) :
    Option ℚ :=
  match scoreLoop issue rules 0 0 with
  | none => none
  | some (totalWeight, earnedScore) =>
    some (if totalWeight > 0 then earnedScore / totalWeight * 5 else 0)

/-- `DEFAULT_RULES` from `src/lib/rules-engine.ts`. -/
def DEFAULT_RULES : List Rule :=
  [⟨"Acceptance Criteria Present",
    "Story must have clear acceptance criteria defined", true, "error", 1,
    "field_presence", "description", "(?i)(acceptance criteria|AC:)",
    some 20⟩,
   ⟨"Story Points Estimated", "Story must have story points assigned",
    true, "warn", 8/10, "field_presence", "customfield_10016", "", none⟩,
   ⟨"Assignee Set", "Story should have an assignee before sprint", true,
    "info", 5/10, "field_presence", "assignee", "", none⟩,
   ⟨"Technical Design Present",
    "Complex stories should have technical design notes", true, "warn",
    9/10, "field_presence", "description",
    "(?i)(technical design|design notes|architecture)", some 50⟩,
   ⟨"Dependencies Identified", "Story should document any dependencies",
    true, "warn", 7/10, "field_presence", "description",
    "(?i)(depends on|dependency|blocked by)", none⟩,
   ⟨"Test Strategy Defined",
    "Story should have testing approach documented", true, "warn", 8/10,
    "field_presence", "description",
    "(?i)(test strategy|testing approach|QA notes)", some 30⟩,
   ⟨"User Impact Documented", "Story should explain impact on users",
    true, "info", 6/10, "field_presence", "description",
    "(?i)(user impact|affects users|customer impact)", none⟩,
   ⟨"Labels Present", "Story should have relevant labels/tags", true,
    "info", 4/10, "field_presence", "labels", "", none⟩,
   ⟨"Priority Set", "Story must have a priority level", true, "error",
    9/10, "field_presence", "priority", "", none⟩]

/-! ## Scan orchestrator: `scoreIssue` (src/app/api/scan/route.ts) -/

/-- The `SUGGESTED_FIXES` table, with the generic fallback applied by
`scoreIssue` (`SUGGESTED_FIXES[rule.name] || 'Address this requirement.'`). -/
def suggestedFix (ruleName : String) : String :=
  if ruleName = "Acceptance Criteria Present" then
    "Add 3-5 bullet points describing expected behavior under \"Acceptance Criteria\" heading."
  else if ruleName = "Story Points Estimated" then
    "Estimate complexity and assign story points (1-13 scale)."
  else if ruleName = "Assignee Set" then
    "Assign a team member who will own this work."
  else if ruleName = "Technical Design Present" then
    "Add a \"Technical Design\" section describing the implementation approach."
  else if ruleName = "Dependencies Identified" then
    "List any blocked-by or depends-on relationships with other issues."
  else if ruleName = "Test Strategy Defined" then
    "Add a \"Test Strategy\" section describing how this will be tested."
  else if ruleName = "User Impact Documented" then
    "Describe how this change affects end users."
  else if ruleName = "Labels Present" then
    "Add relevant labels (e.g., frontend, backend, bug, feature)."
  else if ruleName = "Priority Set" then
    "Set the priority level (Critical, High, Medium, Low)."
  else
    "Address this requirement."

/-- The per-rule test of `scoreIssue`'s missing-item filter: a disabled
rule is not missing; a rule whose name occurs case-insensitively in some
answered question is treated as satisfied; otherwise the pass test is
re-run — here the pattern is first stripped of every Python-style `(?i)`
inline flag before `new RegExp(cleanPattern, 'i')` (the `none` case, an
escaping `SyntaxError`, is unreachable on stripped repository patterns),
and the presence test is `fieldValue !== '' && fieldValue !== null`.
Returns whether the rule is missing. -/
def missingCheck (issue : IssueFields) (answeredQuestions : List String)
    (rule : Rule) : Option Bool :=
  if !rule.enabled then
    some false
  else if answeredQuestions.any
      (fun q => strContains (lowerStr q) (lowerStr rule.name)) then
    some false
  else
    let fieldValue := (getField issue rule.targetField).orEmptyStr
    let base :=
      if rule.expectedPattern ≠ "" then
        let cleanPattern := strReplace rule.expectedPattern "(?i)" ""
        match jsRegexCompileI cleanPattern with
        | none => none
        | some re => some (re.test fieldValue.jsToString)
      else
        some (fieldValue ≠ .vStr "" && fieldValue ≠ .vNull)
    match base with
    | none => none
    | some passes =>
      let passes' :=
        if passes && minLengthTruthy rule.minLength then
          decide (fieldValue.jsToString.length ≥ (rule.minLength.getD 0).toNat)
        else passes
      some (!passes')

/-- The missing-items computation of `scoreIssue`: filter the rules by
`missingCheck`, map each to `{rule, severity, suggestion}`. -/
def computeMissing (issue : IssueFields) (rules : List Rule)
    (answeredQuestions : List String) : Option (List MissingItem) :=
  match rules with
  | [] => some []
  | rule :: rest =>
    match missingCheck issue answeredQuestions rule with
    | none => none
    | some isMissing =>
      match computeMissing issue rest answeredQuestions with
      | none => none
      | some tail =>
        some (if isMissing then
          ⟨rule.name, rule.severity, suggestedFix rule.name⟩ :: tail
        else tail)

/-- The answered-question boost of `scoreIssue`: when at least one
question is answered,
`min(5, raw + (answered / max(totalEnabled, 1)) * (5 - raw) * 0.6)`,
otherwise the raw score unchanged. -/
def boostScore (readinessScore : ℚ) (answeredCount totalEnabled : ℕ) : ℚ :=
  if answeredCount > 0 then
    let answeredShare : ℚ := (answeredCount : ℚ) / (max totalEnabled 1 : ℕ)
    min 5 (readinessScore + answeredShare * (5 - readinessScore) * (6/10))
  else
    readinessScore

/-- `scoreIssue(issue, rules, answeredQuestions)`: the raw
`calculateReadinessScore`, the structured missing items, and the boosted
score; `none` models an uncaught `SyntaxError` escaping either part. -/
def scoreIssue (issue : IssueFields) (rules : List Rule)
    (answeredQuestions : List String) : Option (ℚ × List MissingItem) :=
  match calculateReadinessScore issue rules with
  | none => none
  | some readinessScore =>
    match computeMissing issue rules answeredQuestions with
    | none => none
    | some missing =>
      some (boostScore readinessScore answeredQuestions.length
        (rules.filter (·.enabled)).length, missing)

/-! ## Status resolution and persistence (scan route) -/

/-- The status ladder used by both scan paths:
`score >= tReady ? 'READY' : score >= tClarification ?
'NEEDS_CLARIFICATION' : 'NEEDS_INFO'`. -/
def statusFor (score tReady tClarification : ℚ) : String :=
  if score ≥ tReady then "READY"
  else if score ≥ tClarification then "NEEDS_CLARIFICATION"
  else "NEEDS_INFO"

/-- The single-issue re-scan: build the answered-question list from the
issue's persisted answers with non-empty (trimmed) text, run `scoreIssue`,
freeze the status when `manualOverride` is set, and update the row's
`readinessScore`, `status` and `missingItems`. -/
def rescanIssue (existing : ScannedIssue) (answers : List QaAnswer)
    (issueData : IssueFields) (rules : List Rule)
    (tReady tClarification : ℚ) : Option ScannedIssue :=
  let answeredRules :=
    (answers.filter (fun a => jsTrim a.answer ≠ "")).map (·.question)
  match scoreIssue issueData rules answeredRules with
  | none => none
  | some (score, missing) =>
    let status :=
      if existing.manualOverride then existing.status
      else statusFor score tReady tClarification
    some { existing with
      readinessScore := score, status := status, missingItems := missing }

/-- `prisma.scannedIssue.upsert({where: {jiraKey}, update, create})` over
the list-of-rows model: update every row carrying the (unique) key, or
append the fresh row. -/
def upsertScanned (db : List ScannedIssue) (key : String)
    (upd : ScannedIssue → ScannedIssue) (fresh : ScannedIssue) :
    List ScannedIssue :=
  if db.any (fun r => r.jiraKey == key) then
    db.map (fun r => if r.jiraKey == key then upd r else r)
  else
    db ++ [fresh]

/-- One iteration of the full-scan loop: score the issue with an empty
answered-question list, compute the status from the thresholds, and
upsert by `jiraKey`.  The `update` branch overwrites `summary`,
`description`, `assignee`, `readinessScore`, `status` and `missingItems`
of the pre-existing row (and touches nothing else); the `create` branch
fills the remaining columns with their schema defaults. -/
def fullScanStep (rules : List Rule) (tReady tClarification : ℚ)
    (db : List ScannedIssue) (issue : NormalizedIssue) :
    Option (List ScannedIssue) :=
  match scoreIssue issue.fields rules [] with
  | none => none
  | some (score, missing) =>
    let status := statusFor score tReady tClarification
    some (upsertScanned db issue.key
      (fun r => { r with
        summary := issue.summary, description := issue.description,
        assignee := issue.assignee, readinessScore := score,
        status := status, missingItems := missing })
      { id := "", jiraKey := issue.key, summary := issue.summary,
        description := issue.description, assignee := issue.assignee,
        readinessScore := score, status := status,
        missingItems := missing, questionsGenerated := false,
        slackMessageSent := false, manualOverride := false,
        overrideReason := "" })

/-- The full scan: fold `fullScanStep` over the provider's issues.  An
escaping `SyntaxError` aborts the scan (`none`); pattern compilation does
not depend on the issue's field values, so an aborting scan fails on its
very first issue and persists nothing. -/
def fullScan (rules : List Rule) (tReady tClarification : ℚ) :
    List ScannedIssue → List NormalizedIssue → Option (List ScannedIssue)
  | db, [] => some db
  | db, issue :: rest =>
    match fullScanStep rules tReady tClarification db issue with
    | none => none
    | some db' => fullScan rules tReady tClarification db' rest

/-! ## Override route (src/app/api/issues/override/route.ts) -/

/-- The request body of the override route; each field may be absent. -/
structure OverrideRequest where
  manualOverride : Option Bool
  overrideReason : Option String
  newStatus : Option String
deriving DecidableEq, Repr

/-- The update performed by the override route:
`manualOverride: manualOverride !== undefined ? manualOverride : true`,
`overrideReason: overrideReason || ''`, and
`status: newStatus || undefined` — a missing (or empty, hence falsy)
`newStatus` leaves the stored status untouched, since an `undefined`
field in a Prisma update is skipped. -/
def applyOverride (issue : ScannedIssue) (req : OverrideRequest) :
    ScannedIssue :=
  { issue with
    manualOverride :=
      match req.manualOverride with
      | some b => b
      | none => true,
    overrideReason :=
      match req.overrideReason with
      | some r => if r = "" then "" else r
      | none => "",
    status :=
      match req.newStatus with
      | some s => if s = "" then issue.status else s
      | none => issue.status }

/-! ## Question generation (src/app/api/questions/generate/route.ts) -/

/-- The canned template table (`questionMap`), with the generic fallback
`questionMap[item.rule] || ['Please provide details for: ' + item.rule]`. -/
def questionTemplates (ruleName : String) : List String :=
  if ruleName = "Acceptance Criteria Present" then
    ["What are the specific acceptance criteria for this story? Please provide 3-5 bullet points.",
     "How will we verify this feature is complete and working correctly?"]
  else if ruleName = "Story Points Estimated" then
    ["What is the estimated effort/complexity for this story (story points 1-13)?"]
  else if ruleName = "Assignee Set" then
    ["Who should be assigned to own and deliver this work?"]
  else if ruleName = "Technical Design Present" then
    ["What is the technical approach for implementing this feature?",
     "Are there any architectural decisions or trade-offs to document?"]
  else if ruleName = "Dependencies Identified" then
    ["Does this story depend on or block any other work items?"]
  else if ruleName = "Test Strategy Defined" then
    ["How should this feature be tested? (unit tests, integration, E2E, manual)"]
  else if ruleName = "User Impact Documented" then
    ["What is the expected impact on end users? Who is affected and how?"]
  else if ruleName = "Labels Present" then
    ["What labels/tags should be applied to categorize this work? (e.g., frontend, backend, bug)"]
  else if ruleName = "Priority Set" then
    ["What is the priority level for this story? (Critical, High, Medium, Low)"]
  else
    ["Please provide details for: " ++ ruleName]

/-- `generateMockQuestions`: one or two canned questions per missing item,
tagged with the originating rule name, truncated to 6 in rule order. -/
def generateMockQuestions (missingItems : List MissingItem) :
    List (String × String) :=
  (missingItems.flatMap (fun item =>
    (questionTemplates item.rule).map (fun q => (item.rule, q)))).take 6

/-- The response of the question-generation route. -/
inductive GenResponse where
  | existing (questions : List QaAnswer)
  | noMissing
  | generated (questions : List QaAnswer)
deriving DecidableEq, Repr

/-- The state after the question-generation route: the response, the
`QaAnswer` table, and the `ScannedIssue` row. -/
structure GenOutcome where
  response : GenResponse
  answersAfter : List QaAnswer
  issueAfter : ScannedIssue
deriving DecidableEq, Repr

/-- The question-generation route (template/mock path): on
`regenerate=true` first delete every `QaAnswer` row of this issue whose
`answer` is the empty string; otherwise short-circuit and return the
existing rows when `questionsGenerated` is set **and at least one row
exists**.  Then, if the issue has missing items, generate the canned
questions, persist each as a fresh row `[RuleName] question` with
`answer=""`, and set `questionsGenerated=true`. -/
def questionsGenerateRoute (issue : ScannedIssue) (db : List QaAnswer)
    (regenerate : Bool) : GenOutcome :=
  let issueAnswers := db.filter (fun a => a.issueId == issue.id)
  if !regenerate && issue.questionsGenerated && issueAnswers.length > 0 then
    ⟨.existing issueAnswers, db, issue⟩
  else
    let db1 :=
      if regenerate then
        db.filter (fun a => !(a.issueId == issue.id && a.answer == ""))
      else db
    if issue.missingItems.isEmpty then
      ⟨.noMissing, db1, issue⟩
    else
      let newRows := (generateMockQuestions issue.missingItems).map
        (fun p => QaAnswer.mk "" issue.id ("[" ++ p.1 ++ "] " ++ p.2) "")
      ⟨.generated newRows, db1 ++ newRows,
       { issue with questionsGenerated := true }⟩

/-! ## Answer submission -/

/-- The manual answer-submission endpoint
(`POST /api/questions/answer`): after validating that `issueId`,
`question` and `answer` are all truthy, it **creates** a new `QaAnswer`
row carrying the submitted question and answer (`prisma.qaAnswer.create`);
`none` models the 400 rejection. -/
def submitAnswerRoute (db : List QaAnswer)
    (issueId question answer : String) : Option (List QaAnswer) :=
  if issueId == "" || question == "" || answer == "" then
    none
  else
    some (db ++ [QaAnswer.mk "" issueId question answer])

/-- The modal-submission path of the Slack interaction handler: each
collected answer (non-empty after trimming, for a question row that
exists) is written into the existing row by id
(`prisma.qaAnswer.update({where: {id}})`). -/
def applyModalAnswers (db : List QaAnswer)
    (updates : List (String × String)) : List QaAnswer :=
  match updates with
  | [] => db
  | (qaId, answer) :: rest =>
    applyModalAnswers
      (db.map (fun a => if a.id == qaId then { a with answer := answer }
        else a)) rest

/-! ## Slack send (src/app/api/slack/send/route.ts) -/

/-- The `MOCK_ANSWERS` table with the generic fallback
`MOCK_ANSWERS[ruleName] || 'Acknowledged — will address this before
sprint planning.'`. -/
def mockAnswerFor (ruleName : String) : String :=
  if ruleName = "Acceptance Criteria Present" then
    "1. User can complete the primary action successfully\n2. Error states are handled gracefully\n3. Performance meets the defined SLA\n4. Accessible via keyboard navigation"
  else if ruleName = "Story Points Estimated" then
    "5 story points — moderate complexity with some unknowns."
  else if ruleName = "Assignee Set" then
    "Assigning to the current sprint team lead."
  else if ruleName = "Technical Design Present" then
    "We will use the existing service layer with a new adapter pattern. No new infrastructure needed. Estimated 2 new files + modifications to 3 existing."
  else if ruleName = "Dependencies Identified" then
    "No hard blockers. Soft dependency on the design system update (can proceed in parallel)."
  else if ruleName = "Test Strategy Defined" then
    "Unit tests for business logic, integration test for API endpoints, manual QA for UI flows. Targeting 80% coverage."
  else if ruleName = "User Impact Documented" then
    "Affects approximately 60% of active users. Will improve task completion rate and reduce support tickets."
  else if ruleName = "Labels Present" then
    "Adding labels: feature, frontend, sprint-12"
  else if ruleName = "Priority Set" then
    "Setting priority to High based on customer feedback volume."
  else
    "Acknowledged — will address this before sprint planning."

/-- `question.match(/^\[(.+?)\]/)`: after a leading `[`, the lazy `.+?`
consumes one character unconditionally and then everything up to the
first following `]`; no match (no `[`, nothing before a `]`, or no
closing `]`) yields `""`. -/
def extractBracketRule (q : String) : String :=
  match q.data with
  | '[' :: c :: cs =>
    if charSub [']'] cs then ⟨c :: cs.takeWhile (fun ch => ch ≠ ']')⟩
    else ""
  | _ => ""

/-- The outcome of the Slack-send route. -/
inductive SendResult where
  | sent (issue : ScannedIssue) (answers : List QaAnswer)
  | errNoToken
  | errNoDestination
  | noQuestions
deriving DecidableEq, Repr

/-- A question row counts as unanswered when
`!a.answer || a.answer.trim() === ''`. -/
def isUnanswered (a : QaAnswer) : Bool := jsTrim a.answer == ""

/-- The Slack-send route.  `answers` are the issue's included `QaAnswer`
rows; `mappedSlackUserId` is the persisted `UserMapping` id for the
issue's assignee (consulted only when the assignee is non-empty);
`emailLookup` is the Slack user id the live workspace lookup returns.
Mock mode: set `slackMessageSent=true` and force `WAITING_ON_SLACK`
unconditionally, then fill every unanswered question from the
rule-name-keyed mock table.  Live mode: fail on a missing bot token;
resolve the target (mapped user id, else email lookup, else the default
channel) failing with a no-destination error; return early when no
question is unanswered; otherwise deliver and only then set
`slackMessageSent=true` / `WAITING_ON_SLACK`.  (The side write that
persists a freshly looked-up user mapping touches only the `UserMapping`
table and is not modelled.) -/
def slackSendRoute (issue : ScannedIssue) (answers : List QaAnswer)
    (mockMode : Bool) (botToken : String)
    (mappedSlackUserId : Option String) (emailLookup : Option String)
    (defaultChannel : String) : SendResult :=
  let slackUserId :=
    if issue.assignee ≠ "" then mappedSlackUserId.getD "" else ""
  if mockMode then
    let updated := { issue with
      slackMessageSent := true, status := "WAITING_ON_SLACK" }
    let filled := answers.map (fun a =>
      if isUnanswered a then
        { a with answer := mockAnswerFor (extractBracketRule a.question) }
      else a)
    .sent updated filled
  else if botToken = "" then
    .errNoToken
  else
    let target :=
      if slackUserId ≠ "" then slackUserId
      else if issue.assignee ≠ "" then
        match emailLookup with
        | some lookedUpId =>
          if lookedUpId ≠ "" then lookedUpId else defaultChannel
        | none => defaultChannel
      else defaultChannel
    if target = "" then
      .errNoDestination
    else
      let unanswered := answers.filter isUnanswered
      if unanswered.length = 0 then
        .noQuestions
      else
        .sent { issue with
          slackMessageSent := true, status := "WAITING_ON_SLACK" } answers

/-! ## Concrete fixtures -/

/-- The rule of the repository's own unit test
`strips (?i) Python-style inline flags without error`
(tests/e2e/scenarios.spec.ts): a pattern rule carrying the legacy inline
case-insensitive marker. -/
def ciRule : Rule :=
  ⟨"AC Present", "test", true, "error", 1, "field_presence",
   "description", "(?i)(acceptance criteria)", none⟩

/-- The issue of that unit test: `{description: 'Acceptance Criteria'}`. -/
def ciIssue : IssueFields := [("description", .vStr "Acceptance Criteria")]

/-- A presence-only rule on the `priority` field (the default
`Priority Set` rule with weight 1). -/
def priorityRule : Rule :=
  ⟨"Priority Set", "Story must have a priority level", true, "error", 1,
   "field_presence", "priority", "", none⟩

/-- The mock issue `DEMO-102` (`Add dark mode toggle`): empty assignee,
`null` priority, empty labels, `null` story points. -/
def demo102 : NormalizedIssue :=
  ⟨"DEMO-102", "Add dark mode toggle",
   "Simple dark mode for the app. Users want it.", "", none, [], none⟩

/-! ## Weights earned and total (specification-side sums for C2) -/

/-- The total weight of the enabled rules. -/
def enabledWeight (rules : List Rule) : ℚ :=
  ((rules.filter (·.enabled)).map (·.weight)).sum

/-- The total weight of the enabled rules that pass their
presence/pattern/minLength test. -/
def earnedWeight (issue : IssueFields) (rules : List Rule) : ℚ :=
  ((rules.filter (fun r => r.enabled && (ruleCheck issue r == some true))).map
    (·.weight)).sum

/-- The accumulation loop computes exactly the enabled-weight and
earned-weight sums on top of its accumulators. -/
lemma scoreLoop_eq (issue : IssueFields) :
    ∀ (rules : List Rule) (tw e : ℚ) (p : ℚ × ℚ),
      scoreLoop issue rules tw e = some p →
      p = (tw + enabledWeight rules, e + earnedWeight issue rules) := by
  intro rules
  induction rules with
  | nil =>
    intro tw e p h
    simp only [scoreLoop, Option.some.injEq] at h
    simp [← h, enabledWeight, earnedWeight]
  | cons r rest ih =>
    intro tw e p h
    by_cases hr : r.enabled
    · simp only [scoreLoop, hr, if_true] at h
      rcases hc : ruleCheck issue r with _ | passes
      · rw [hc] at h; cases h
      · rw [hc] at h
        have := ih (tw + r.weight)
          (e + if passes then r.weight else 0) p h
        rw [this]
        have hw : enabledWeight (r :: rest) = r.weight + enabledWeight rest := by
          simp [enabledWeight, hr]
        have he : earnedWeight issue (r :: rest) =
            (if passes then r.weight else 0) + earnedWeight issue rest := by
          cases passes with
          | true => simp [earnedWeight, hr, hc]
          | false => simp [earnedWeight, hr, hc]
        rw [hw, he]
        simp only [Prod.mk.injEq]
        constructor <;> ring
    · simp only [scoreLoop, hr, if_false] at h
      have := ih tw e p h
      rw [this]
      have hw : enabledWeight (r :: rest) = enabledWeight rest := by
        simp [enabledWeight, hr]
      have he : earnedWeight issue (r :: rest) = earnedWeight issue rest := by
        simp [earnedWeight, hr]
      rw [hw, he]

/-- With every rule disabled the loop is the identity on its
accumulators and never throws. -/
lemma scoreLoop_all_disabled (issue : IssueFields) :
    ∀ (rules : List Rule) (tw e : ℚ), (∀ r ∈ rules, r.enabled = false) →
      scoreLoop issue rules tw e = some (tw, e) := by
  intro rules
  induction rules with
  | nil => intro tw e _; rfl
  | cons r rest ih =>
    intro tw e hdis
    have hr : r.enabled = false := hdis r (List.mem_cons_self r rest)
    simp only [scoreLoop, hr, Bool.false_eq_true, if_false]
    exact ih tw e (fun r' hr' => hdis r' (List.mem_cons_of_mem r hr'))

/-- C2: for every issue and rule list, whenever scoring returns a value it
equals 5 times the earned enabled weight divided by the total enabled
weight (and 0 when that total is not positive); and with no enabled rule
scoring returns exactly 0. -/
theorem C2_score_is_weighted_average :
    (∀ (issue : IssueFields) (rules : List Rule) (s : ℚ),
      calculateReadinessScore issue rules = some s →
      s = if 0 < enabledWeight rules then
        earnedWeight issue rules / enabledWeight rules * 5
      else 0) ∧
    (∀ (issue : IssueFields) (rules : List Rule),
      (∀ r ∈ rules, r.enabled = false) →
      calculateReadinessScore issue rules = some 0) := by
  constructor
  · intro issue rules s h
    unfold calculateReadinessScore at h
    rcases hl : scoreLoop issue rules 0 0 with _ | p
    · rw [hl] at h; cases h
    · rw [hl] at h
      have hp := scoreLoop_eq issue rules 0 0 p hl
      simp only [zero_add] at hp
      cases p with
      | mk tw e =>
        cases hp
        simp only [Option.some.injEq] at h
        exact h.symm
  · intro issue rules hdis
    unfold calculateReadinessScore
    rw [scoreLoop_all_disabled issue rules 0 0 hdis]
    norm_num

/-- A pair of equal-weight presence rules, one passing, one failing, for
the C2 witness (the repository test `returns correct weighted score with
mixed rules`). -/
def ruleA : Rule :=
  ⟨"Rule A", "test", true, "error", 1, "field_presence", "fieldA", "", none⟩

/-- Companion failing rule of the C2 witness. -/
def ruleB : Rule :=
  ⟨"Rule B", "test", true, "warn", 1, "field_presence", "fieldB", "", none⟩

/-- The issue of the C2 witness: `fieldA` present, `fieldB` empty. -/
def mixedIssue : IssueFields :=
  [("fieldA", .vStr "value"), ("fieldB", .vStr "")]

/-- On the mixed two-rule example the computed score is exactly 5/2 (the
repository test `returns correct weighted score with mixed rules`). -/
lemma mixed_score :
    calculateReadinessScore mixedIssue [ruleA, ruleB] = some (5/2) := by
  have hA : ruleCheck mixedIssue ruleA = some true := by decide
  have hB : ruleCheck mixedIssue ruleB = some false := by decide
  simp only [ruleA, ruleB] at hA hB
  simp only [calculateReadinessScore, scoreLoop, ruleA, ruleB, hA, hB]
  norm_num

/-- Witness for C2: on the mixed two-rule example the returned score 5/2
matches the weighted-average formula, and disabling the rules yields
score 0. -/
theorem C2_score_is_weighted_average_witness :
    ((5/2 : ℚ) = if 0 < enabledWeight [ruleA, ruleB] then
      earnedWeight mixedIssue [ruleA, ruleB] /
        enabledWeight [ruleA, ruleB] * 5
    else 0) ∧
    calculateReadinessScore mixedIssue
      [{ ruleA with enabled := false }] = some 0 :=
  ⟨C2_score_is_weighted_average.1 mixedIssue [ruleA, ruleB] (5/2)
    mixed_score,
   C2_score_is_weighted_average.2 mixedIssue [{ ruleA with enabled := false }]
    (by decide)⟩

/-- C1 (code bug): `calculateReadinessScore` hands the raw
`expectedPattern` to `new RegExp(pattern, 'i')` without stripping the
legacy `(?i)` marker and without any per-rule catch, so on the
repository's own unit-test input (and on five of the nine seeded
`DEFAULT_RULES`) the `SyntaxError` escapes the scoring loop instead of
the rule being treated as failing — contradicting the spec and the unit
test, which demand score 5 and no throw.  The `scoreIssue` missing-item
filter, by contrast, strips the marker first and succeeds on the same
rule. -/
theorem C1_inline_flag_escapes :
    calculateReadinessScore ciIssue [ciRule] = none ∧
    computeMissing ciIssue [ciRule] [] = some [] ∧
    calculateReadinessScore [] DEFAULT_RULES = none := by
  refine ⟨by decide, by decide, ?_⟩
  decide

/-! ## C4: the answered-question boost -/

/-- C4: the re-scan boost step equals
`min(5, raw + (answered / max(totalEnabled, 1)) * (5 - raw) * 0.6)`, and
for every raw score in `[0, 5]` and non-empty answered list it never
drops below the raw score and never exceeds 5; moreover every successful
`scoreIssue` returns exactly the boost of its raw
`calculateReadinessScore`, taken over the enabled-rule count. -/
theorem C4_boost_formula_and_bounds :
    (∀ (raw : ℚ) (answered totalEnabled : ℕ),
      0 ≤ raw → raw ≤ 5 → 0 < answered →
      boostScore raw answered totalEnabled =
        min 5 (raw + ((answered : ℚ) / ((max totalEnabled 1 : ℕ) : ℚ)) *
          (5 - raw) * (6/10)) ∧
      raw ≤ boostScore raw answered totalEnabled ∧
      boostScore raw answered totalEnabled ≤ 5) ∧
    (∀ (issue : IssueFields) (rules : List Rule)
       (answeredQuestions : List String) (s : ℚ) (m : List MissingItem),
      scoreIssue issue rules answeredQuestions = some (s, m) →
      ∃ raw, calculateReadinessScore issue rules = some raw ∧
        s = boostScore raw answeredQuestions.length
          (rules.filter (·.enabled)).length) := by
  constructor
  · intro raw answered totalEnabled h0 h5 hpos
    have hform : boostScore raw answered totalEnabled =
        min 5 (raw + ((answered : ℚ) / ((max totalEnabled 1 : ℕ) : ℚ)) *
          (5 - raw) * (6/10)) := by
      simp [boostScore, hpos]
    refine ⟨hform, ?_, ?_⟩
    · rw [hform]
      have hden : (0 : ℚ) < ((max totalEnabled 1 : ℕ) : ℚ) := by
        have : 1 ≤ max totalEnabled 1 := le_max_right _ _
        exact_mod_cast Nat.lt_of_lt_of_le Nat.zero_lt_one this
      have hshare : (0 : ℚ) ≤
          (answered : ℚ) / ((max totalEnabled 1 : ℕ) : ℚ) :=
        div_nonneg (by positivity) hden.le
      have hterm : (0 : ℚ) ≤
          ((answered : ℚ) / ((max totalEnabled 1 : ℕ) : ℚ)) *
            (5 - raw) * (6/10) := by
        have h1 : (0 : ℚ) ≤ 5 - raw := by linarith
        have h2 : (0 : ℚ) ≤ (6/10 : ℚ) := by norm_num
        exact mul_nonneg (mul_nonneg hshare h1) h2
      exact le_min h5 (by linarith)
    · rw [hform]; exact min_le_left _ _
  · intro issue rules answeredQuestions s m h
    unfold scoreIssue at h
    rcases hc : calculateReadinessScore issue rules with _ | raw
    · rw [hc] at h; cases h
    · rw [hc] at h
      rcases hm : computeMissing issue rules answeredQuestions with _ | miss
      · rw [hm] at h; cases h
      · rw [hm] at h
        simp only [Option.some.injEq, Prod.mk.injEq] at h
        exact ⟨raw, rfl, h.1.symm⟩

/-- `scoreIssue` on the empty rule set with a single answered question. -/
lemma scoreIssue_boost_example :
    scoreIssue [] [] ["[Rule A] answered"] = some (boostScore 0 1 0, []) := by
  simp [scoreIssue, calculateReadinessScore, scoreLoop, computeMissing]

/-- Witness for C4 at `raw = 0`, one answered question, one enabled
rule, and for the `scoreIssue` link on a concrete call. -/
theorem C4_boost_formula_and_bounds_witness :
    (boostScore 0 1 1 =
      min 5 (0 + (((1 : ℕ) : ℚ) / ((max 1 1 : ℕ) : ℚ)) * (5 - 0) * (6/10)) ∧
     (0 : ℚ) ≤ boostScore 0 1 1 ∧ boostScore 0 1 1 ≤ 5) ∧
    (∃ raw, calculateReadinessScore [] [] = some raw ∧
      boostScore 0 1 0 = boostScore raw 1 0) := by
  constructor
  · exact C4_boost_formula_and_bounds.1 0 1 1 (by norm_num) (by norm_num)
      (by norm_num)
  · have h := C4_boost_formula_and_bounds.2 [] [] ["[Rule A] answered"]
      (boostScore 0 1 0) [] scoreIssue_boost_example
    simpa using h

/-! ## C3: the manual-override freeze -/

/-- A persisted issue with a manual override (`DEMO-102` frozen `READY`
with a recorded reason). -/
def ovrRow : ScannedIssue :=
  ⟨"i1", "DEMO-102", "Add dark mode toggle",
   "Simple dark mode for the app. Users want it.", "", 5, "READY", [],
   false, false, true, "agreed in sprint planning"⟩

/-- `Priority Set` fails on `DEMO-102` (its priority is `null`), so a
full scan with the single `priorityRule` scores it 0 with one missing
item. -/
lemma scoreIssue_demo102 :
    scoreIssue demo102.fields [priorityRule] [] =
      some (0, [⟨"Priority Set", "error",
        "Set the priority level (Critical, High, Medium, Low)."⟩]) := by
  have hc : ruleCheck demo102.fields priorityRule = some false := by decide
  have hm : missingCheck demo102.fields [] priorityRule = some true := by
    decide
  have hs : suggestedFix "Priority Set" =
      "Set the priority level (Critical, High, Medium, Low)." := by decide
  simp only [priorityRule] at hc hm
  simp only [scoreIssue, calculateReadinessScore, scoreLoop, computeMissing,
    priorityRule, hc, hm, boostScore]
  norm_num
  exact hs

/-- The result row of the full-scan counterexample: the override flag is
still set, but the status was overwritten with the freshly computed one. -/
def c3row : ScannedIssue :=
  { ovrRow with
    readinessScore := 0,
    status := "NEEDS_INFO",
    missingItems := [⟨"Priority Set", "error",
      "Set the priority level (Critical, High, Medium, Low)."⟩] }

/-- Running the full-scan step over the overridden row rewrites its
status to `NEEDS_INFO`. -/
lemma fullScanStep_demo102 :
    fullScanStep [priorityRule] 4 2 [ovrRow] demo102 = some [c3row] := by
  have hstatus : statusFor 0 4 2 = "NEEDS_INFO" := by
    rw [statusFor]; norm_num
  simp only [fullScanStep, scoreIssue_demo102, hstatus]
  simp [upsertScanned, ovrRow, c3row, demo102]

/-- Counterexample for C3: the full batch scan does **not** freeze an
overridden status — on the overridden `DEMO-102` row (status `READY`,
`manualOverride = true`) the scan stores `NEEDS_INFO`. -/
theorem C3_full_scan_overwrites_override :
    (fullScanStep [priorityRule] 4 2 [ovrRow] demo102).map
      (fun db => db.map (·.status)) = some ["NEEDS_INFO"] ∧
    ovrRow.manualOverride = true ∧ ovrRow.status = "READY" := by
  rw [fullScanStep_demo102]
  exact ⟨rfl, rfl, rfl⟩

/-- C3 as amended: the single-issue rescan freezes the status of an
overridden issue whatever the recomputed score, but the full batch scan
overwrites the stored status of every row it matches — including
overridden ones — with the freshly computed status. -/
theorem C3_rescan_freezes_full_scan_does_not :
    (∀ (existing : ScannedIssue) (answers : List QaAnswer)
       (issueData : IssueFields) (rules : List Rule) (tReady tClar : ℚ)
       (res : ScannedIssue),
      existing.manualOverride = true →
      rescanIssue existing answers issueData rules tReady tClar =
        some res →
      res.status = existing.status) ∧
    (∀ (rules : List Rule) (tReady tClar : ℚ) (db : List ScannedIssue)
       (issue : NormalizedIssue) (db' : List ScannedIssue) (s : ℚ)
       (m : List MissingItem),
      fullScanStep rules tReady tClar db issue = some db' →
      scoreIssue issue.fields rules [] = some (s, m) →
      ∀ r' ∈ db', r'.jiraKey = issue.key →
        r'.status = statusFor s tReady tClar) := by
  constructor
  · intro existing answers issueData rules tReady tClar res hovr h
    rcases hs : scoreIssue issueData rules
        ((answers.filter (fun a => jsTrim a.answer ≠ "")).map (·.question))
      with _ | ⟨score, missing⟩
    · simp only [rescanIssue, hs] at h
      cases h
    · simp only [rescanIssue, hs, hovr, if_true, Option.some.injEq] at h
      rw [← h]
  · intro rules tReady tClar db issue db' s m h hscore r' hr' hkey
    simp only [fullScanStep, hscore, Option.some.injEq] at h
    rw [← h] at hr'
    unfold upsertScanned at hr'
    by_cases hany : db.any (fun r => r.jiraKey == issue.key)
    · rw [if_pos hany] at hr'
      rcases List.mem_map.mp hr' with ⟨r, hrdb, hrr⟩
      by_cases hk : r.jiraKey == issue.key
      · rw [if_pos hk] at hrr
        rw [← hrr]
      · rw [if_neg hk] at hrr
        rw [← hrr] at hkey
        exact absurd hkey (by simpa using hk)
    · rw [if_neg hany] at hr'
      rcases List.mem_append.mp hr' with hin | hin
      · exfalso
        apply hany
        rw [List.any_eq_true]
        exact ⟨r', hin, by simpa using hkey⟩
      · rcases List.mem_singleton.mp hin with rfl
        rfl

/-- Witness for C3 as amended: the rescan part applied to the overridden
row with an empty rule list (status stays `READY`), and the full-scan
part applied to the `DEMO-102` counterexample run. -/
theorem C3_rescan_freezes_witness :
    ({ ovrRow with
        readinessScore := 0,
        missingItems := ([] : List MissingItem) } : ScannedIssue).status =
      ovrRow.status ∧
    c3row.status = statusFor 0 4 2 :=
  ⟨C3_rescan_freezes_full_scan_does_not.1 ovrRow [] [] [] 4 2
      { ovrRow with
        readinessScore := 0,
        missingItems := ([] : List MissingItem) } rfl (by decide),
   C3_rescan_freezes_full_scan_does_not.2 [priorityRule] 4 2 [ovrRow]
      demo102 [c3row] 0
      [⟨"Priority Set", "error",
        "Set the priority level (Critical, High, Medium, Low)."⟩]
      fullScanStep_demo102 scoreIssue_demo102 c3row
      (List.mem_singleton.mpr rfl) rfl⟩

/-! ## C5: upsert-by-jiraKey idempotence of the full scan -/

/-- The `jiraKey` column of a `ScannedIssue` table. -/
def jiraKeys (db : List ScannedIssue) : List String := db.map (·.jiraKey)

/-- `db.any (·.jiraKey == key)` is exactly membership of `key` in the
key column. -/
lemma any_jiraKey_eq_mem (db : List ScannedIssue) (key : String) :
    (db.any (fun r => r.jiraKey == key)) = true ↔ key ∈ jiraKeys db := by
  rw [List.any_eq_true]
  constructor
  · rintro ⟨r, hr, hk⟩
    have hk' : r.jiraKey = key := by simpa using hk
    exact hk' ▸ List.mem_map_of_mem (fun x => x.jiraKey) hr
  · intro hmem
    rcases List.mem_map.mp hmem with ⟨r, hr, hk⟩
    exact ⟨r, hr, by simp [hk]⟩

/-- A successful full-scan step leaves the key column unchanged when the
key was present, and appends exactly that key otherwise. -/
lemma fullScanStep_keys (rules : List Rule) (tReady tClar : ℚ)
    (db : List ScannedIssue) (issue : NormalizedIssue)
    (db' : List ScannedIssue)
    (h : fullScanStep rules tReady tClar db issue = some db') :
    jiraKeys db' = if issue.key ∈ jiraKeys db then jiraKeys db
      else jiraKeys db ++ [issue.key] := by
  rcases hs : scoreIssue issue.fields rules [] with _ | ⟨s, m⟩
  · simp only [fullScanStep, hs] at h
    cases h
  · simp only [fullScanStep, hs, Option.some.injEq] at h
    rw [← h]
    unfold upsertScanned
    by_cases hany : db.any (fun r => r.jiraKey == issue.key) = true
    · rw [if_pos hany, if_pos ((any_jiraKey_eq_mem db issue.key).mp hany)]
      unfold jiraKeys
      rw [List.map_map]
      refine List.map_congr_left ?_
      intro r _
      by_cases hk : r.jiraKey == issue.key <;> simp [Function.comp, hk]
    · rw [if_neg hany,
        if_neg (fun hmem => hany ((any_jiraKey_eq_mem db issue.key).mpr hmem))]
      simp [jiraKeys]

/-- Whether a full-scan step succeeds depends only on the rules, never on
the database it upserts into. -/
lemma fullScanStep_some_transfer (rules : List Rule) (tReady tClar : ℚ)
    (db : List ScannedIssue) (issue : NormalizedIssue)
    (db' : List ScannedIssue)
    (h : fullScanStep rules tReady tClar db issue = some db')
    (db0 : List ScannedIssue) :
    ∃ db0', fullScanStep rules tReady tClar db0 issue = some db0' := by
  rcases hs : scoreIssue issue.fields rules [] with _ | ⟨s, m⟩
  · simp only [fullScanStep, hs] at h
    cases h
  · rcases h0 : fullScanStep rules tReady tClar db0 issue with _ | db0'
    · simp only [fullScanStep, hs] at h0
      cases h0
    · exact ⟨db0', rfl⟩

/-- Over a successful full scan, a key ends in the table iff it was
there before or is a scanned issue's key. -/
lemma fullScan_keys_mem (rules : List Rule) (tReady tClar : ℚ) :
    ∀ (issues : List NormalizedIssue) (db db' : List ScannedIssue),
      fullScan rules tReady tClar db issues = some db' →
      ∀ k, k ∈ jiraKeys db' ↔ k ∈ jiraKeys db ∨ k ∈ issues.map (·.key) := by
  intro issues
  induction issues with
  | nil =>
    intro db db' h k
    simp only [fullScan, Option.some.injEq] at h
    rw [← h]
    simp
  | cons issue rest ih =>
    intro db db' h k
    rcases hstep : fullScanStep rules tReady tClar db issue with _ | db1
    · simp only [fullScan, hstep] at h
      cases h
    · simp only [fullScan, hstep] at h
      have hk1 := fullScanStep_keys rules tReady tClar db issue db1 hstep
      have hrest := ih db1 db' h k
      rw [hrest]
      by_cases hmem : issue.key ∈ jiraKeys db
      · rw [hk1, if_pos hmem]
        simp only [List.map_cons, List.mem_cons]
        constructor
        · rintro (h1 | h1)
          · exact Or.inl h1
          · exact Or.inr (Or.inr h1)
        · rintro (h1 | h1 | h1)
          · exact Or.inl h1
          · exact Or.inl (h1 ▸ hmem)
          · exact Or.inr h1
      · rw [hk1, if_neg hmem]
        simp only [List.mem_append, List.mem_singleton, List.map_cons,
          List.mem_cons, List.not_mem_nil, or_false]
        constructor
        · rintro ((h1 | h1) | h1)
          · exact Or.inl h1
          · exact Or.inr (Or.inl h1)
          · exact Or.inr (Or.inr h1)
        · rintro (h1 | h1 | h1)
          · exact Or.inl (Or.inl h1)
          · exact Or.inl (Or.inr h1)
          · exact Or.inr h1

/-- A successful full scan preserves distinctness of the key column: it
never creates two rows with the same `jiraKey`. -/
lemma fullScan_nodup (rules : List Rule) (tReady tClar : ℚ) :
    ∀ (issues : List NormalizedIssue) (db db' : List ScannedIssue),
      fullScan rules tReady tClar db issues = some db' →
      (jiraKeys db).Nodup → (jiraKeys db').Nodup := by
  intro issues
  induction issues with
  | nil =>
    intro db db' h hnd
    simp only [fullScan, Option.some.injEq] at h
    rw [← h]; exact hnd
  | cons issue rest ih =>
    intro db db' h hnd
    rcases hstep : fullScanStep rules tReady tClar db issue with _ | db1
    · simp only [fullScan, hstep] at h
      cases h
    · simp only [fullScan, hstep] at h
      refine ih db1 db' h ?_
      have hk1 := fullScanStep_keys rules tReady tClar db issue db1 hstep
      by_cases hmem : issue.key ∈ jiraKeys db
      · rw [hk1, if_pos hmem]; exact hnd
      · rw [hk1, if_neg hmem, List.nodup_append]
        exact ⟨hnd, List.nodup_singleton _, by simpa using hmem⟩

/-- Re-running a successful full scan over a database already containing
every scanned key succeeds and leaves the key column (hence the row
count) unchanged. -/
lemma fullScan_rerun (rules : List Rule) (tReady tClar : ℚ) :
    ∀ (issues : List NormalizedIssue) (db db1 : List ScannedIssue),
      fullScan rules tReady tClar db issues = some db1 →
      ∀ db0 : List ScannedIssue, (∀ i ∈ issues, i.key ∈ jiraKeys db0) →
      ∃ db2, fullScan rules tReady tClar db0 issues = some db2 ∧
        jiraKeys db2 = jiraKeys db0 := by
  intro issues
  induction issues with
  | nil =>
    intro db db1 _ db0 _
    exact ⟨db0, rfl, rfl⟩
  | cons issue rest ih =>
    intro db db1 h db0 hkeys
    rcases hstep : fullScanStep rules tReady tClar db issue with _ | dbx
    · simp only [fullScan, hstep] at h
      cases h
    · simp only [fullScan, hstep] at h
      rcases fullScanStep_some_transfer rules tReady tClar db issue dbx
        hstep db0 with ⟨db0x, hstep0⟩
      have hmem0 : issue.key ∈ jiraKeys db0 :=
        hkeys issue (List.mem_cons_self issue rest)
      have hkeys0x : jiraKeys db0x = jiraKeys db0 := by
        rw [fullScanStep_keys rules tReady tClar db0 issue db0x hstep0,
          if_pos hmem0]
      rcases ih dbx db1 h db0x (fun i hi => by
          rw [hkeys0x]
          exact hkeys i (List.mem_cons_of_mem issue hi)) with
        ⟨db2, hscan2, hkeys2⟩
      exact ⟨db2, by simp only [fullScan, hstep0]; exact hscan2,
        hkeys2.trans hkeys0x⟩

/-- C5: a successful full scan over a table with distinct `jiraKey`s
yields a table with distinct `jiraKey`s, and running the same scan again
over the same source issues succeeds and leaves the row count
unchanged. -/
theorem C5_full_scan_idempotent :
    ∀ (rules : List Rule) (tReady tClar : ℚ) (db : List ScannedIssue)
      (issues : List NormalizedIssue) (db1 : List ScannedIssue),
      (jiraKeys db).Nodup →
      fullScan rules tReady tClar db issues = some db1 →
      (jiraKeys db1).Nodup ∧
      ∃ db2, fullScan rules tReady tClar db1 issues = some db2 ∧
        db2.length = db1.length := by
  intro rules tReady tClar db issues db1 hnd h
  refine ⟨fullScan_nodup rules tReady tClar issues db db1 h hnd, ?_⟩
  have hall : ∀ i ∈ issues, i.key ∈ jiraKeys db1 := by
    intro i hi
    exact (fullScan_keys_mem rules tReady tClar issues db db1 h i.key).mpr
      (Or.inr (List.mem_map_of_mem (·.key) hi))
  rcases fullScan_rerun rules tReady tClar issues db db1 h db1 hall with
    ⟨db2, hscan2, hkeys2⟩
  refine ⟨db2, hscan2, ?_⟩
  have := congrArg List.length hkeys2
  simpa [jiraKeys] using this

/-- The row produced by scanning `DEMO-102` into an empty table with an
empty rule list. -/
def c5row : ScannedIssue :=
  ⟨"", "DEMO-102", "Add dark mode toggle",
   "Simple dark mode for the app. Users want it.", "", 0, "NEEDS_INFO",
   [], false, false, false, ""⟩

/-- Witness for C5: scanning `DEMO-102` into the empty table produces
`[c5row]`, whose key column is duplicate-free, and rescanning succeeds
with the same row count. -/
theorem C5_full_scan_idempotent_witness :
    (jiraKeys [c5row]).Nodup ∧
    ∃ db2, fullScan [] 4 2 [c5row] [demo102] = some db2 ∧
      db2.length = [c5row].length :=
  C5_full_scan_idempotent [] 4 2 [] [demo102] [c5row] (by decide)
    (by decide)

/-! ## C6: the override operation -/

/-- A plain scanned row (`DEMO-105`, low score, no override yet). -/
def c6row : ScannedIssue :=
  ⟨"i2", "DEMO-105", "Fix payment processing timeout errors",
   "Payments sometimes time out after 30s. Need investigation.",
   "alice@example.com", 1, "NEEDS_INFO", [], false, false, false, ""⟩

/-- Counterexample for C6: an override request carrying no `newStatus`
leaves the stored status untouched (`status: newStatus || undefined` is
skipped by the update) instead of defaulting it to `READY`, and an
explicit `manualOverride: false` in the body is stored as given rather
than forced to `true`. -/
theorem C6_no_ready_default :
    (applyOverride c6row ⟨some false, some "ship it anyway", none⟩).status =
      "NEEDS_INFO" ∧
    (applyOverride c6row
      ⟨some false, some "ship it anyway", none⟩).status ≠ "READY" ∧
    (applyOverride c6row
      ⟨some false, some "ship it anyway", none⟩).manualOverride = false := by
  decide

/-- C6 as amended: the override operation sets the status to the
requested value when a non-empty one is supplied and leaves the stored
status unchanged otherwise; it sets `manualOverride` to the supplied
flag, defaulting to `true` when the flag is absent; and it persists the
supplied reason, defaulting to the empty string. -/
theorem C6_override_semantics :
    ∀ (issue : ScannedIssue) (req : OverrideRequest),
      (∀ s, req.newStatus = some s → s ≠ "" →
        (applyOverride issue req).status = s) ∧
      ((req.newStatus = none ∨ req.newStatus = some "") →
        (applyOverride issue req).status = issue.status) ∧
      (applyOverride issue req).manualOverride =
        req.manualOverride.getD true ∧
      (applyOverride issue req).overrideReason =
        req.overrideReason.getD "" := by
  intro issue req
  rcases req with ⟨mo, rsn, ns⟩
  refine ⟨?_, ?_, ?_, ?_⟩
  · intro s hs hne
    cases hs
    simp [applyOverride, hne]
  · rintro (hns | hns) <;> cases hns <;> simp [applyOverride]
  · rcases mo with _ | b <;> simp [applyOverride]
  · rcases rsn with _ | r
    · simp [applyOverride]
    · by_cases hr : r = "" <;> simp [applyOverride, hr]

/-- Witness for C6 as amended, on a request supplying `READY`
explicitly with a reason and no `manualOverride` flag. -/
theorem C6_override_semantics_witness :
    (applyOverride c6row ⟨none, some "approved in planning", some "READY"⟩).status =
      "READY" ∧
    (applyOverride c6row
        ⟨none, some "approved in planning", some "READY"⟩).manualOverride =
      (none : Option Bool).getD true ∧
    (applyOverride c6row
        ⟨none, some "approved in planning", some "READY"⟩).overrideReason =
      (some "approved in planning").getD "" :=
  ⟨(C6_override_semantics c6row
      ⟨none, some "approved in planning", some "READY"⟩).1 "READY" rfl
      (by decide),
   (C6_override_semantics c6row
      ⟨none, some "approved in planning", some "READY"⟩).2.2.1,
   (C6_override_semantics c6row
      ⟨none, some "approved in planning", some "READY"⟩).2.2.2⟩

/-! ## C7: answer submission paths -/

/-- A single unanswered question row for issue `i3`. -/
def c7q : String :=
  "[Priority Set] What is the priority level for this story? (Critical, High, Medium, Low)"

/-- A Q&A table holding exactly that one unanswered row. -/
def c7db : List QaAnswer := [⟨"q1", "i3", c7q, ""⟩]

/-- Counterexample for C7: the manual answer-submission endpoint calls
`prisma.qaAnswer.create`, so submitting an answer grows the issue's Q&A
table from 1 row to 2 instead of mutating the existing row in place. -/
theorem C7_manual_submit_creates_row :
    (submitAnswerRoute c7db "i3" c7q "High, confirmed with the PM").map
      List.length = some 2 ∧
    c7db.length = 1 := by
  decide

/-- C7 as amended: the messaging round trip (modal submission) updates
existing rows in place — the row count and the row ids are unchanged —
while the manual answer-submission endpoint appends a brand-new row,
growing the table by one and leaving every pre-existing row untouched. -/
theorem C7_answer_paths :
    (∀ (db : List QaAnswer) (updates : List (String × String)),
      (applyModalAnswers db updates).length = db.length ∧
      (applyModalAnswers db updates).map (·.id) = db.map (·.id)) ∧
    (∀ (db : List QaAnswer) (issueId question answer : String)
       (db' : List QaAnswer),
      submitAnswerRoute db issueId question answer = some db' →
      db'.length = db.length + 1 ∧ db'.take db.length = db) := by
  constructor
  · intro db updates
    induction updates generalizing db with
    | nil => exact ⟨rfl, rfl⟩
    | cons u rest ih =>
      cases u with
      | mk qaId answer =>
        have h := ih (db.map (fun a =>
          if a.id == qaId then { a with answer := answer } else a))
        constructor
        · rw [applyModalAnswers, h.1, List.length_map]
        · rw [applyModalAnswers, h.2, List.map_map]
          refine List.map_congr_left ?_
          intro a _
          by_cases hk : a.id == qaId <;> simp [Function.comp, hk]
  · intro db issueId question answer db' h
    unfold submitAnswerRoute at h
    by_cases hc : (issueId == "" || question == "" || answer == "") = true
    · rw [if_pos hc] at h
      cases h
    · rw [if_neg hc] at h
      simp only [Option.some.injEq] at h
      rw [← h]
      exact ⟨by simp, by simp⟩

/-- The row the manual endpoint creates in the C7 witness. -/
def c7new : QaAnswer := ⟨"", "i3", c7q, "High"⟩

/-- Witness for C7 as amended: answering `q1` through the modal keeps
one row with the same id, while the manual endpoint turns the one-row
table into that row plus a fresh one. -/
theorem C7_answer_paths_witness :
    ((applyModalAnswers c7db [("q1", "High")]).length = c7db.length ∧
     (applyModalAnswers c7db [("q1", "High")]).map (·.id) =
       c7db.map (·.id)) ∧
    ((c7db ++ [c7new]).length = c7db.length + 1 ∧
     (c7db ++ [c7new]).take c7db.length = c7db) :=
  ⟨C7_answer_paths.1 c7db [("q1", "High")],
   C7_answer_paths.2 c7db "i3" c7q "High" (c7db ++ [c7new])
     (by decide)⟩

/-! ## C8: regeneration deletes only unanswered rows -/

/-- On `regenerate=true` the route's `QaAnswer` table afterwards is the
empty-answer-filtered table, possibly extended with the freshly
generated rows. -/
lemma regenerate_answers_shape (issue : ScannedIssue) (db : List QaAnswer) :
    (questionsGenerateRoute issue db true).answersAfter =
      db.filter (fun a => !(a.issueId == issue.id && a.answer == "")) ∨
    (questionsGenerateRoute issue db true).answersAfter =
      db.filter (fun a => !(a.issueId == issue.id && a.answer == "")) ++
        (generateMockQuestions issue.missingItems).map
          (fun p => QaAnswer.mk "" issue.id ("[" ++ p.1 ++ "] " ++ p.2) "") := by
  by_cases hmi : issue.missingItems.isEmpty
  · left
    simp [questionsGenerateRoute, hmi]
  · right
    simp [questionsGenerateRoute, hmi]

/-- C8: regeneration deletes only this issue's rows whose answer is the
empty string; every row with a non-empty answer is still present,
unmodified, after the `regenerate=true` call. -/
theorem C8_regenerate_preserves_answered :
    ∀ (issue : ScannedIssue) (db : List QaAnswer),
      (∀ a ∈ db, a.answer ≠ "" →
        a ∈ (questionsGenerateRoute issue db true).answersAfter) ∧
      (∀ a ∈ db, a ∉ (questionsGenerateRoute issue db true).answersAfter →
        a.issueId = issue.id ∧ a.answer = "") := by
  intro issue db
  constructor
  · intro a ha hne
    have h1 : a ∈ db.filter
        (fun a => !(a.issueId == issue.id && a.answer == "")) := by
      rw [List.mem_filter]
      exact ⟨ha, by simp [hne]⟩
    rcases regenerate_answers_shape issue db with hr | hr <;> rw [hr]
    · exact h1
    · exact List.mem_append_left _ h1
  · intro a ha hnot
    have h1 : a ∉ db.filter
        (fun a => !(a.issueId == issue.id && a.answer == "")) := by
      intro hin
      apply hnot
      rcases regenerate_answers_shape issue db with hr | hr <;> rw [hr]
      · exact hin
      · exact List.mem_append_left _ hin
    have h2 : (a.issueId == issue.id && a.answer == "") = true := by
      by_contra h3
      rw [Bool.not_eq_true] at h3
      exact h1 (List.mem_filter.mpr ⟨ha, by simp [h3]⟩)
    rw [Bool.and_eq_true, beq_iff_eq, beq_iff_eq] at h2
    exact h2

/-- A previously answered row for issue `i3`. -/
def c8answered : QaAnswer :=
  ⟨"q2", "i3", "[Assignee Set] Who should be assigned to own and deliver this work?",
   "Alice owns this"⟩

/-- An unanswered row for issue `i3`. -/
def c8empty : QaAnswer := ⟨"q3", "i3", c7q, ""⟩

/-- The `DEMO-105` row as persisted with one missing item and questions
already generated (issue id `i3`). -/
def c8issue : ScannedIssue :=
  ⟨"i3", "DEMO-105", "Fix payment processing timeout errors",
   "Payments sometimes time out after 30s. Need investigation.",
   "alice@example.com", 1, "NEEDS_INFO",
   [⟨"Priority Set", "error",
     "Set the priority level (Critical, High, Medium, Low)."⟩],
   true, false, false, ""⟩

/-- Witness for C8: the answered row survives regeneration, and the row
the regeneration drops is this issue's unanswered one. -/
theorem C8_regenerate_preserves_answered_witness :
    c8answered ∈
      (questionsGenerateRoute c8issue [c8answered, c8empty] true).answersAfter ∧
    (c8empty.issueId = c8issue.id ∧ c8empty.answer = "") :=
  ⟨(C8_regenerate_preserves_answered c8issue [c8answered, c8empty]).1
      c8answered (by decide) (by decide),
   (C8_regenerate_preserves_answered c8issue [c8answered, c8empty]).2
      c8empty (by decide) (by decide)⟩

/-! ## C10: the idempotency short-circuit needs at least one row -/

/-- Every rule name has at least one canned template (the generic
fallback covers unmapped names). -/
lemma questionTemplates_ne_nil (ruleName : String) :
    questionTemplates ruleName ≠ [] := by
  unfold questionTemplates
  split_ifs <;> simp

/-- With at least one missing item the canned generation produces at
least one question. -/
lemma generateMockQuestions_ne_nil (item : MissingItem)
    (rest : List MissingItem) :
    generateMockQuestions (item :: rest) ≠ [] := by
  unfold generateMockQuestions
  intro h
  rw [List.take_eq_nil_iff] at h
  rcases h with h | h
  · cases h
  · rw [List.flatMap_cons] at h
    rcases List.append_eq_nil.mp h with ⟨h1, _⟩
    exact questionTemplates_ne_nil item.rule (List.map_eq_nil_iff.mp h1)

/-- C10: with `questionsGenerated = true` but zero persisted rows for
the issue, a `regenerate=false` call does not return the empty existing
set — the short-circuit requires at least one row — and instead
generates and persists a fresh non-empty batch of `[RuleName]`-tagged
unanswered rows for the current missing items. -/
theorem C10_no_rows_regenerates :
    ∀ (issue : ScannedIssue) (db : List QaAnswer),
      issue.questionsGenerated = true →
      db.filter (fun a => a.issueId == issue.id) = [] →
      issue.missingItems ≠ [] →
      ∃ qs, questionsGenerateRoute issue db false =
          ⟨.generated qs, db ++ qs,
            { issue with questionsGenerated := true }⟩ ∧
        qs ≠ [] ∧ ∀ a ∈ qs, a.issueId = issue.id ∧ a.answer = "" := by
  intro issue db hgen hfilter hmiss
  have hmi : issue.missingItems.isEmpty = false := by
    rcases hx : issue.missingItems with _ | ⟨i, rest⟩
    · exact absurd hx hmiss
    · rfl
  refine ⟨(generateMockQuestions issue.missingItems).map
    (fun p => QaAnswer.mk "" issue.id ("[" ++ p.1 ++ "] " ++ p.2) ""), ?_, ?_, ?_⟩
  · simp [questionsGenerateRoute, hfilter, hmi]
  · rcases hx : issue.missingItems with _ | ⟨i, rest⟩
    · exact absurd hx hmiss
    · intro hnil
      exact generateMockQuestions_ne_nil i rest
        (List.map_eq_nil_iff.mp hnil)
  · intro a ha
    rcases List.mem_map.mp ha with ⟨p, _, hp⟩
    rw [← hp]
    exact ⟨rfl, rfl⟩

/-- The `DEMO-105` row with `questionsGenerated = true`, one missing
item, and (in the witness) no persisted Q&A rows. -/
def c10issue : ScannedIssue :=
  ⟨"i4", "DEMO-105", "Fix payment processing timeout errors",
   "Payments sometimes time out after 30s. Need investigation.",
   "alice@example.com", 1, "NEEDS_INFO",
   [⟨"Priority Set", "error",
     "Set the priority level (Critical, High, Medium, Low)."⟩],
   true, false, false, ""⟩

/-- Witness for C10 on an empty Q&A table. -/
theorem C10_no_rows_regenerates_witness :
    ∃ qs, questionsGenerateRoute c10issue [] false =
        ⟨.generated qs, [] ++ qs,
          { c10issue with questionsGenerated := true }⟩ ∧
      qs ≠ [] ∧ ∀ a ∈ qs, a.issueId = c10issue.id ∧ a.answer = "" :=
  C10_no_rows_regenerates c10issue [] rfl (by decide) (by decide)

/-! ## C9: the Slack send forces WAITING_ON_SLACK -/

/-- C9: whenever the Slack-send route actually sends — which is
unconditional in mock mode, and in live mode happens exactly when a bot
token is configured, a destination resolves and at least one question is
unanswered — the stored row gets `status = WAITING_ON_SLACK` and
`slackMessageSent = true`, with no condition whatsoever on the issue's
current status or score (the score is left untouched). -/
theorem C9_send_forces_waiting :
    (∀ (issue : ScannedIssue) (answers : List QaAnswer) (mockMode : Bool)
       (botToken : String) (mapped lookedUp : Option String) (chan : String)
       (upd : ScannedIssue) (ans : List QaAnswer),
      slackSendRoute issue answers mockMode botToken mapped lookedUp chan =
        .sent upd ans →
      upd.status = "WAITING_ON_SLACK" ∧ upd.slackMessageSent = true ∧
      upd.readinessScore = issue.readinessScore) ∧
    (∀ (issue : ScannedIssue) (answers : List QaAnswer) (botToken : String)
       (mapped lookedUp : Option String) (chan : String),
      ∃ upd ans,
        slackSendRoute issue answers true botToken mapped lookedUp chan =
          .sent upd ans) ∧
    (∀ (issue : ScannedIssue) (answers : List QaAnswer) (botToken : String)
       (chan : String),
      botToken ≠ "" → chan ≠ "" →
      (answers.filter isUnanswered).length ≠ 0 →
      ∃ upd ans,
        slackSendRoute issue answers false botToken none none chan =
          .sent upd ans) := by
  refine ⟨?_, ?_, ?_⟩
  · intro issue answers mockMode botToken mapped lookedUp chan upd ans h
    simp only [slackSendRoute] at h
    repeat' split at h
    all_goals cases h
    all_goals exact ⟨rfl, rfl, rfl⟩
  · intro issue answers botToken mapped lookedUp chan
    refine ⟨{ issue with
        slackMessageSent := true, status := "WAITING_ON_SLACK" },
      answers.map (fun a =>
        if isUnanswered a then
          { a with answer := mockAnswerFor (extractBracketRule a.question) }
        else a), ?_⟩
    simp [slackSendRoute]
  · intro issue answers botToken chan hb hc hq
    refine ⟨{ issue with
        slackMessageSent := true, status := "WAITING_ON_SLACK" },
      answers, ?_⟩
    simp only [slackSendRoute, Option.getD]
    rw [if_neg (by simp : ¬(false = true)), if_neg hb]
    by_cases ha : issue.assignee ≠ "" <;> simp [ha, hc, hq]

/-- Witness for C9: a mock send on the `DEMO-105` row (with no answers,
no token, no mapping and no channel) yields a sent result whose row is
forced to `WAITING_ON_SLACK` / `slackMessageSent = true` with the score
untouched; and a live send with a token, a default channel and one
unanswered question also reaches the sent state. -/
theorem C9_send_forces_waiting_witness :
    (({ c6row with
        slackMessageSent := true,
        status := "WAITING_ON_SLACK" } : ScannedIssue).status =
      "WAITING_ON_SLACK" ∧
     ({ c6row with
        slackMessageSent := true,
        status := "WAITING_ON_SLACK" } : ScannedIssue).slackMessageSent =
      true ∧
     ({ c6row with
        slackMessageSent := true,
        status := "WAITING_ON_SLACK" } : ScannedIssue).readinessScore =
      c6row.readinessScore) ∧
    (∃ upd ans,
      slackSendRoute c6row [c8empty] false "xoxb-token" none none "C123" =
        .sent upd ans) :=
  ⟨C9_send_forces_waiting.1 c6row [] true "" none none ""
      { c6row with slackMessageSent := true, status := "WAITING_ON_SLACK" }
      [] (by decide),
   C9_send_forces_waiting.2.2 c6row [c8empty] "xoxb-token" "C123"
      (by decide) (by decide) (by decide)⟩

end DorGatekeeper
